import Mathlib

/-!
Verification development for the eduvpn-common export boundary.

The repository's source files are C headers declaring the data shapes
(`disco.h`, `server.h`, `error.h`) and the host-callback wrapper functions
(`exports.h`). The headers contain no logic; the catalog store, server
selector and connection state machine are specified in the accompanying
design document. Data shapes and the wrapper functions are embedded
directly from the headers; the store, selector and state machine are
modelled from the specification (each such definition says so in its
doc comment).
-/

namespace EduVpn

/-- Embedded from `src/exports/server.h` (`serverProfile`): id, display
name, default-gateway flag and the ordered dns search domains. The C
`int default_gateway` is a boolean flag. -/
structure ServerProfile where
  id : String
  display_name : String
  default_gateway : Bool
  dns_search_domains : List String
deriving DecidableEq, Repr

/-- Embedded from `src/exports/server.h` (`serverProfiles`): an ordered
sequence of profiles plus `current`, an index into the sequence where a
negative value (C uses -1) means "none selected yet". -/
structure ServerProfiles where
  current : Int
  profiles : List ServerProfile
deriving DecidableEq, Repr

/-- The three server types of the spec (`server_type` in
`src/exports/server.h` is a string drawn from this closed set; the
`servers` struct separates them into distinct storage slots). -/
inductive ServerType where
  | institute
  | secure_internet
  | custom
deriving DecidableEq, Repr

/-- Embedded from `src/exports/server.h` (`server`): identifier (unique
key, scoped by server type), display name, type, country code, support
contacts, location codes (secure-internet only), profiles and the expiry
time in unsigned epoch seconds where 0 means no expiry. -/
structure Server where
  identifier : String
  display_name : String
  server_type : ServerType
  country_code : String
  support_contact : List String
  locations : List String
  profiles : ServerProfiles
  expire_time : Nat
deriving DecidableEq, Repr

/-- Embedded from `src/exports/server.h` (`servers`) plus the version
counter of `src/exports/c/disco.h` (`discoveryServers.version`): the
custom and institute server collections, at most one secure-internet
server (a single nullable slot in the C struct, hence `Option`), and the
monotonic catalog version. -/
structure ServerList where
  version : Nat
  custom_servers : List Server
  institute_servers : List Server
  secure_internet_server : Option Server
deriving DecidableEq, Repr

/-- Embedded from `src/exports/c/disco.h` (`discoveryOrganization`). -/
structure Organization where
  display_name : String
  org_id : String
  secure_internet_home : String
  keyword_list : String
deriving DecidableEq, Repr

/-- Embedded from `src/exports/c/disco.h` (`discoveryOrganizations`):
version counter plus the ordered organization sequence. -/
structure OrganizationList where
  version : Nat
  organizations : List Organization
deriving DecidableEq, Repr

/-- The error kinds of the spec's error-handling design (the C side in
`src/exports/error.h` carries them as level/traceback/cause strings). -/
inductive EngineError where
  | StaleVersion
  | InvalidCatalog
  | ServerNotFound
  | OrganizationNotFound
  | NoSecureInternetHome
  | AlreadyConnecting
  | AlreadyConnected
  | TransitionVetoed
  | CallbackUnregistered
deriving DecidableEq, Repr

/-- A key list is duplicate-free. -/
def uniqueKeys : List String → Bool
  | [] => true
  | k :: ks => !(ks.contains k) && uniqueKeys ks

/-- Modelled from the spec: structural validity of a candidate
organization list (the catalog-store validation absent from `src/`) —
every organization has a non-empty `org_id` and the ids are unique. -/
def orgListValid (l : OrganizationList) : Bool :=
  l.organizations.all (fun o => o.org_id ≠ "") &&
  uniqueKeys (l.organizations.map (·.org_id))

/-- Modelled from the spec: structural validity of a candidate server
list (the catalog-store validation absent from `src/`) — every server has
a non-empty identifier, sits in the slot matching its type, and
identifiers are unique within each slot. -/
def serverListValid (l : ServerList) : Bool :=
  l.custom_servers.all
    (fun s => s.identifier ≠ "" && s.server_type == ServerType.custom) &&
  uniqueKeys (l.custom_servers.map (·.identifier)) &&
  l.institute_servers.all
    (fun s => s.identifier ≠ "" && s.server_type == ServerType.institute) &&
  uniqueKeys (l.institute_servers.map (·.identifier)) &&
  (match l.secure_internet_server with
   | none => true
   | some s => s.identifier ≠ "" && s.server_type == ServerType.secure_internet)

/-- Modelled from the spec: the catalog store absent from `src/` — it
holds the current organization and server lists, each carrying its
monotonic version. -/
structure CatalogStore where
  organizations : OrganizationList
  servers : ServerList
deriving DecidableEq, Repr

/-- Modelled from the spec: catalogs are created empty at engine start. -/
def initialStore : CatalogStore :=
  { organizations := { version := 0, organizations := [] }
  , servers :=
      { version := 0, custom_servers := [], institute_servers := []
      , secure_internet_server := none } }

/-- Modelled from the spec: `replace_servers` — commits a fully-formed
candidate list as the new current catalog when its version is greater
than the current version, fails with `StaleVersion` otherwise, and fails
with `InvalidCatalog` on a malformed candidate; the store is returned
unchanged alongside the error on any failure (no partial commit). -/
def replace_servers (store : CatalogStore) (cand : ServerList) :
    CatalogStore × Option EngineError :=
  if serverListValid cand = false then
    (store, some EngineError.InvalidCatalog)
  else if cand.version ≤ store.servers.version then
    (store, some EngineError.StaleVersion)
  else
    ({ store with servers := cand }, none)

/-- Modelled from the spec: `replace_organizations` — same contract as
`replace_servers` for the organization catalog. -/
def replace_organizations (store : CatalogStore) (cand : OrganizationList) :
    CatalogStore × Option EngineError :=
  if orgListValid cand = false then
    (store, some EngineError.InvalidCatalog)
  else if cand.version ≤ store.organizations.version then
    (store, some EngineError.StaleVersion)
  else
    ({ store with organizations := cand }, none)

/-- A resolved server as produced by the server selector: the request's
identifier and type, the underlying server, the selected active profile
(none when the server publishes no profiles) and the advisory `Expired`
flag. -/
structure ResolvedServer where
  identifier : String
  server_type : ServerType
  srv : Server
  profile : Option ServerProfile
  expired : Bool
deriving DecidableEq, Repr

/-- Modelled from the spec: profile selection of the server selector
(absent from `src/`) — if `current` is a valid index use that profile;
otherwise the first profile in sequence order with `default_gateway`
set, raising the non-fatal `MultipleDefaultProfiles` warning (the `Bool`
in the result) when more than one qualifies; otherwise the first profile
in sequence order; `none` only when the sequence is empty. -/
def selectProfile (ps : ServerProfiles) : Option (ServerProfile × Bool) :=
  if h : 0 ≤ ps.current ∧ ps.current.toNat < ps.profiles.length then
    some (ps.profiles.get ⟨ps.current.toNat, h.2⟩, false)
  else
    match ps.profiles.filter (·.default_gateway) with
    | [] => ps.profiles.head?.map (fun p => (p, false))
    | [p] => some (p, false)
    | p :: _ :: _ => some (p, true)

/-- Modelled from the spec: server lookup by `(server_type, identifier)`
in the current catalog snapshot — each type keys its own storage slot of
the `servers` struct. -/
def lookupServer (sl : ServerList) (t : ServerType) (id : String) :
    Option Server :=
  match t with
  | ServerType.custom => sl.custom_servers.find? (fun s => s.identifier == id)
  | ServerType.institute =>
      sl.institute_servers.find? (fun s => s.identifier == id)
  | ServerType.secure_internet =>
      sl.secure_internet_server.bind
        (fun s => if s.identifier == id then some s else none)

/-- Modelled from the spec: a server is expired when its `expire_time`
is non-zero and has passed at the resolution time (epoch seconds); 0
means no expiry. -/
def isExpired (s : Server) (now : Nat) : Bool :=
  s.expire_time ≠ 0 && s.expire_time ≤ now

/-- Modelled from the spec: `resolve(server_type, identifier)` of the
server selector (absent from `src/`) — looks the server up in the
current snapshot, fails with `ServerNotFound` if absent, selects the
active profile, and flags advisory expiry; the `Bool` alongside the
result is the `MultipleDefaultProfiles` warning. -/
def resolve (sl : ServerList) (t : ServerType) (id : String) (now : Nat) :
    Except EngineError (ResolvedServer × Bool) :=
  match lookupServer sl t id with
  | none => Except.error EngineError.ServerNotFound
  | some s =>
      match selectProfile s.profiles with
      | none =>
          Except.ok
            ({ identifier := s.identifier, server_type := t, srv := s
             , profile := none, expired := isExpired s now }, false)
      | some (p, w) =>
          Except.ok
            ({ identifier := s.identifier, server_type := t, srv := s
             , profile := some p, expired := isExpired s now }, w)

/-- Update a server's `profiles.current`; identifier, type and every
other field are untouched. -/
def setCurrent (i : Int) (s : Server) : Server :=
  { s with profiles := { s.profiles with current := i } }

/-- Set the profile index on the one server bearing the identifier,
leave every other server alone. -/
def updServer (id : String) (i : Int) (s : Server) : Server :=
  if s.identifier == id then setCurrent i s else s

/-- Modelled from the spec: the selector persists a selected profile
index back into the catalog entry of the resolved server; no other entry
and no identifier, type or version changes. -/
def persistSelection (sl : ServerList) (t : ServerType) (id : String)
    (i : Int) : ServerList :=
  match t with
  | ServerType.custom =>
      { sl with custom_servers := sl.custom_servers.map (updServer id i) }
  | ServerType.institute =>
      { sl with institute_servers := sl.institute_servers.map (updServer id i) }
  | ServerType.secure_internet =>
      { sl with secure_internet_server := sl.secure_internet_server.map (updServer id i) }

/-- Modelled from the spec: the store operations reachable states are
closed under — catalog replaces and the selector's persisted profile
selection. -/
inductive StoreOp where
  | replaceOrgs (l : OrganizationList)
  | replaceServers (l : ServerList)
  | persistSel (t : ServerType) (id : String) (i : Int)

/-- Apply one store operation; a failed replace leaves the store as it
was. -/
def applyOp (store : CatalogStore) : StoreOp → CatalogStore
  | StoreOp.replaceOrgs l => (replace_organizations store l).1
  | StoreOp.replaceServers l => (replace_servers store l).1
  | StoreOp.persistSel t id i =>
      { store with servers := persistSelection store.servers t id i }

/-- The server-list shape invariant of the spec's data model: each slot
holds only servers of its own type, keyed by unique identifiers; the
secure-internet slot is a single `Option` and so holds at most one
server by construction. -/
def serverListInvariant (sl : ServerList) : Bool :=
  uniqueKeys (sl.custom_servers.map (·.identifier)) &&
  uniqueKeys (sl.institute_servers.map (·.identifier)) &&
  sl.custom_servers.all (fun s => s.server_type == ServerType.custom) &&
  sl.institute_servers.all (fun s => s.server_type == ServerType.institute) &&
  (match sl.secure_internet_server with
   | none => true
   | some s => s.server_type == ServerType.secure_internet)

/-- Number of secure-internet servers a server list holds (the C struct
has a single nullable `secure_internet_server` pointer). -/
def secureInternetCount (sl : ServerList) : Nat :=
  match sl.secure_internet_server with
  | none => 0
  | some _ => 1

/-- The connection states of the spec's data model. -/
inductive ConnState where
  | NoServer
  | Disconnected
  | Connecting
  | Connected
  | Disconnecting
  | Failed (reason : String)
deriving DecidableEq, Repr

/-- The events driving the connection state machine in the spec's
transition diagram. -/
inductive ConnEvent where
  | connect
  | established
  | failure (reason : String)
  | ack
  | disconnect
  | teardown_done
  | force_reset
deriving DecidableEq, Repr

/-- Modelled from the spec: one step of the connection state machine
(absent from `src/`). Returns the new state, the `(old_state, new_state)`
pair reported to the host's state callback when a transition occurs
(`none` when no transition is emitted), and the error returned to the
caller, if any. `connect` while `Connecting`/`Connected` fails with
`AlreadyConnecting`/`AlreadyConnected` without a transition;
`force_reset` when already `Disconnected` has nothing to report; every
other unlisted state/event pair leaves the machine untouched. -/
def step : ConnState → ConnEvent →
    ConnState × Option (ConnState × ConnState) × Option EngineError
  | ConnState.Disconnected, ConnEvent.connect =>
      (ConnState.Connecting,
       some (ConnState.Disconnected, ConnState.Connecting), none)
  | ConnState.Connecting, ConnEvent.connect =>
      (ConnState.Connecting, none, some EngineError.AlreadyConnecting)
  | ConnState.Connected, ConnEvent.connect =>
      (ConnState.Connected, none, some EngineError.AlreadyConnected)
  | ConnState.Connecting, ConnEvent.established =>
      (ConnState.Connected,
       some (ConnState.Connecting, ConnState.Connected), none)
  | ConnState.Connecting, ConnEvent.failure r =>
      (ConnState.Failed r,
       some (ConnState.Connecting, ConnState.Failed r), none)
  | ConnState.Connected, ConnEvent.failure r =>
      (ConnState.Failed r,
       some (ConnState.Connected, ConnState.Failed r), none)
  | ConnState.Failed r, ConnEvent.ack =>
      (ConnState.Disconnected,
       some (ConnState.Failed r, ConnState.Disconnected), none)
  | ConnState.Connected, ConnEvent.disconnect =>
      (ConnState.Disconnecting,
       some (ConnState.Connected, ConnState.Disconnecting), none)
  | ConnState.Connecting, ConnEvent.disconnect =>
      (ConnState.Disconnecting,
       some (ConnState.Connecting, ConnState.Disconnecting), none)
  | ConnState.Disconnecting, ConnEvent.teardown_done =>
      (ConnState.Disconnected,
       some (ConnState.Disconnecting, ConnState.Disconnected), none)
  | ConnState.Disconnected, ConnEvent.force_reset =>
      (ConnState.Disconnected, none, none)
  | s, ConnEvent.force_reset =>
      (ConnState.Disconnected, some (s, ConnState.Disconnected), none)
  | s, _ => (s, none, none)

/-- Run the machine over an event sequence from a state, collecting the
final state and the sequence of `(old_state, new_state)` pairs reported
to the host's state callback, one per transition, in order. -/
def run : ConnState → List ConnEvent →
    ConnState × List (ConnState × ConnState)
  | s, [] => (s, [])
  | s, e :: es =>
      let r := step s e
      let rest := run r.1 es
      (rest.1, r.2.1.toList ++ rest.2)

/-- The reported pairs chain from the start state to the final state:
each pair's old state is the state the machine was in when that
transition fired, and its new state is where the next pair (or the final
state) picks up. -/
def chained : ConnState → List (ConnState × ConnState) → ConnState → Prop
  | s, [], f => s = f
  | s, p :: ts, f => p.1 = s ∧ chained p.2 ts f

/-- The result of one host-callback wrapper invocation: the value handed
back to the engine plus the list of host-callback invocations the
wrapper performed, each recorded with its arguments. -/
structure HostCall (ε : Type) (ρ : Type) where
  ret : ρ
  calls : List ε
deriving Repr

/-- Embedded from `src/exports/exports.h` (`get_read_rx_bytes`): invoke
the `ReadRxBytes` callback and return its result; C `long long int`
embeds as `Int`. -/
def get_read_rx_bytes (read : Unit → Int) : HostCall Unit Int :=
  { ret := read (), calls := [()] }

/-- Embedded from `src/exports/exports.h` (`call_callback`): invoke the
`StateCB` callback with the old state, new state and the opaque user
data, and return its result. -/
def call_callback {α : Type} (callback : Int → Int → α → Int)
    (oldstate newstate : Int) (data : α) : HostCall (Int × Int × α) Int :=
  { ret := callback oldstate newstate data
  , calls := [(oldstate, newstate, data)] }

/-- Embedded from `src/exports/exports.h` (`call_refresh_list`): invoke
the fire-and-forget `RefreshList` callback. -/
def call_refresh_list (refresh : Unit → Unit) : HostCall Unit Unit :=
  { ret := refresh (), calls := [()] }

/-- Embedded from `src/exports/exports.h` (`call_token_getter`): invoke
the `TokenGetter` callback, which returns void and writes the token into
the caller-supplied `out` buffer of capacity `len` bytes. The getter is
embedded as the byte sequence the host writes for the given server id,
server type and capacity; the buffer holds the first `len` of those
bytes. The wrapper's returned value is the final buffer contents — the
one channel through which token data flows back. -/
def call_token_getter (getter : String → Int → Nat → List Nat)
    (server_id : String) (server_type : Int) (len : Nat) :
    HostCall (String × Int × Nat) (List Nat) :=
  { ret := (getter server_id server_type len).take len
  , calls := [(server_id, server_type, len)] }

/-- Embedded from `src/exports/exports.h` (`call_token_setter`): invoke
the void `TokenSetter` callback with the server id, type and token
blob. -/
def call_token_setter (setter : String → Int → String → Unit)
    (server_id : String) (server_type : Int) (tokens : String) :
    HostCall (String × Int × String) Unit :=
  { ret := setter server_id server_type tokens
  , calls := [(server_id, server_type, tokens)] }

/-- Embedded from `src/exports/exports.h` (`call_proxy_setup`): invoke
the void `ProxySetup` callback with the socket descriptor. -/
def call_proxy_setup (proxysetup : Int → Unit) (fd : Int) :
    HostCall Int Unit :=
  { ret := proxysetup fd, calls := [fd] }

/-- A `(server_type, identifier)` pair is present in a catalog snapshot:
some server with that identifier sits in the storage slot of that
type. -/
def presentIn (sl : ServerList) (t : ServerType) (id : String) : Prop :=
  match t with
  | ServerType.custom => ∃ s ∈ sl.custom_servers, s.identifier = id
  | ServerType.institute => ∃ s ∈ sl.institute_servers, s.identifier = id
  | ServerType.secure_internet =>
      ∃ s, sl.secure_internet_server = some s ∧ s.identifier = id

/-- A sample profile without the default-gateway flag. -/
def profNoGw : ServerProfile :=
  { id := "p1", display_name := "Profile 1", default_gateway := false
  , dns_search_domains := [] }

/-- A sample profile with the default-gateway flag. -/
def profGw : ServerProfile :=
  { id := "p2", display_name := "Profile 2", default_gateway := true
  , dns_search_domains := [] }

/-- A sample server of the given identifier, type and expiry. -/
def sampleServer (id : String) (t : ServerType) (exp : Nat) : Server :=
  { identifier := id, display_name := id, server_type := t
  , country_code := "", support_contact := [], locations := []
  , profiles := { current := -1, profiles := [profNoGw, profGw] }
  , expire_time := exp }

/-- A sample valid server list at version 1. -/
def listV1 : ServerList :=
  { version := 1
  , custom_servers := [sampleServer "a" ServerType.custom 0]
  , institute_servers := [], secure_internet_server := none }

/-- A sample valid server list at version 2. -/
def listV2 : ServerList :=
  { version := 2
  , custom_servers := [sampleServer "b" ServerType.custom 0]
  , institute_servers := [], secure_internet_server := none }

/-- A sample server list holding a server that expired at epoch
second 5. -/
def listExpired : ServerList :=
  { version := 1
  , custom_servers := [sampleServer "old" ServerType.custom 5]
  , institute_servers := [], secure_internet_server := none }

/-- A malformed server list: duplicate identifier in the custom slot. -/
def badServerList : ServerList :=
  { version := 1
  , custom_servers :=
      [sampleServer "a" ServerType.custom 0, sampleServer "a" ServerType.custom 0]
  , institute_servers := [], secure_internet_server := none }

/-- A sample valid organization list at version 1. -/
def orgsV1 : OrganizationList :=
  { version := 1
  , organizations :=
      [{ display_name := "Org", org_id := "o1"
       , secure_internet_home := "srv-si-1", keyword_list := "" }] }

/-- A sample valid organization list at version 2. -/
def orgsV2 : OrganizationList :=
  { version := 2
  , organizations :=
      [{ display_name := "Org", org_id := "o1"
       , secure_internet_home := "srv-si-1", keyword_list := "" }] }

/-- C6: a `connect()` issued while the machine is `Connecting` fails with
`AlreadyConnecting`, and while `Connected` fails with `AlreadyConnected`;
in both cases no transition pair is emitted to the state callback and the
state is unchanged. -/
theorem c6_connect_while_busy :
    step ConnState.Connecting ConnEvent.connect =
      (ConnState.Connecting, none, some EngineError.AlreadyConnecting) ∧
    step ConnState.Connected ConnEvent.connect =
      (ConnState.Connected, none, some EngineError.AlreadyConnected) :=
  ⟨rfl, rfl⟩

/-- C9: every host-callback wrapper of `exports.h` invokes the supplied
callback exactly once (its invocation list is the singleton of the
argument tuple, passed through unchanged) and returns the callback's
result unchanged when one exists. -/
theorem c9_wrappers_pass_through :
    (∀ read : Unit → Int,
       (get_read_rx_bytes read).ret = read () ∧
       (get_read_rx_bytes read).calls = [()]) ∧
    (∀ (α : Type) (cb : Int → Int → α → Int) (o n : Int) (d : α),
       (call_callback cb o n d).ret = cb o n d ∧
       (call_callback cb o n d).calls = [(o, n, d)]) ∧
    (∀ refresh : Unit → Unit,
       (call_refresh_list refresh).calls = [()]) ∧
    (∀ (g : String → Int → Nat → List Nat) (sid : String) (ty : Int)
       (len : Nat),
       (call_token_getter g sid ty len).calls = [(sid, ty, len)]) ∧
    (∀ (setter : String → Int → String → Unit) (sid : String) (ty : Int)
       (tok : String),
       (call_token_setter setter sid ty tok).calls = [(sid, ty, tok)]) ∧
    (∀ (p : Int → Unit) (fd : Int),
       (call_proxy_setup p fd).calls = [fd]) :=
  ⟨fun _ => ⟨rfl, rfl⟩, fun _ _ _ _ _ => ⟨rfl, rfl⟩, fun _ => rfl,
   fun _ _ _ _ => rfl, fun _ _ _ _ => rfl, fun _ _ => rfl⟩

/-- C10: the token getter returns void and delivers the token only
through the caller-supplied buffer of capacity `len`: the buffer the
wrapper hands back never exceeds `len` bytes, it consists exactly of the
first `len` bytes the host writes (so two getters agreeing on those
bytes are indistinguishable — there is no other channel, in particular
no return value to signal absence), and a getter that writes nothing
yields the empty buffer, the only representation of "no stored
token". -/
theorem c10_token_only_via_buffer :
    ∀ (g : String → Int → Nat → List Nat) (sid : String) (ty : Int)
      (len : Nat),
      (call_token_getter g sid ty len).ret.length ≤ len ∧
      (call_token_getter g sid ty len).ret = (g sid ty len).take len ∧
      (∀ g2 : String → Int → Nat → List Nat,
         (g sid ty len).take len = (g2 sid ty len).take len →
         call_token_getter g sid ty len = call_token_getter g2 sid ty len) ∧
      (g sid ty len = [] → (call_token_getter g sid ty len).ret = []) := by
  intro g sid ty len
  refine ⟨?_, rfl, ?_, ?_⟩
  · simp [call_token_getter]
  · intro g2 h
    simp [call_token_getter, h]
  · intro h
    simp [call_token_getter, h]

/-- Witness for C10 at a concrete getter, server id, type and
capacity. -/
theorem c10_witness :
    call_token_getter (fun _ _ _ => ([] : List Nat)) "srv" 0 4 =
      call_token_getter (fun _ _ _ => ([] : List Nat)) "srv" 0 4 ∧
    (call_token_getter (fun _ _ _ => ([] : List Nat)) "srv" 0 4).ret = [] :=
  ⟨(c10_token_only_via_buffer (fun _ _ _ => []) "srv" 0 4).2.2.1
     (fun _ _ _ => []) rfl,
   (c10_token_only_via_buffer (fun _ _ _ => []) "srv" 0 4).2.2.2 rfl⟩

/-- A valid candidate with a strictly newer version commits. -/
theorem replace_servers_ok (st : CatalogStore) (cand : ServerList)
    (hval : serverListValid cand = true)
    (hver : st.servers.version < cand.version) :
    replace_servers st cand = ({ st with servers := cand }, none) := by
  unfold replace_servers
  rw [if_neg (by simp [hval]), if_neg (by omega)]

/-- A valid candidate whose version is not newer is rejected stale. -/
theorem replace_servers_stale (st : CatalogStore) (cand : ServerList)
    (hval : serverListValid cand = true)
    (hver : cand.version ≤ st.servers.version) :
    replace_servers st cand = (st, some EngineError.StaleVersion) := by
  unfold replace_servers
  rw [if_neg (by simp [hval]), if_pos hver]

/-- A valid organization candidate with a strictly newer version
commits. -/
theorem replace_organizations_ok (st : CatalogStore)
    (cand : OrganizationList) (hval : orgListValid cand = true)
    (hver : st.organizations.version < cand.version) :
    replace_organizations st cand =
      ({ st with organizations := cand }, none) := by
  unfold replace_organizations
  rw [if_neg (by simp [hval]), if_neg (by omega)]

/-- A valid organization candidate whose version is not newer is
rejected stale. -/
theorem replace_organizations_stale (st : CatalogStore)
    (cand : OrganizationList) (hval : orgListValid cand = true)
    (hver : cand.version ≤ st.organizations.version) :
    replace_organizations st cand = (st, some EngineError.StaleVersion) := by
  unfold replace_organizations
  rw [if_neg (by simp [hval]), if_pos hver]

/-- C1: from any store older than L1, committing L1 then L2 (with
`L2.version > L1.version`, both valid) succeeds twice and leaves the
store at L2's contents; committing L2 then L1 commits L2, rejects L1
with `StaleVersion`, and leaves the store at L2's contents; and in
general any candidate whose version is at most the current version is
never committed — the store is returned unchanged and a valid such
candidate fails with `StaleVersion`. Both for `replace_servers` and
`replace_organizations`. -/
theorem c1_version_gate (st : CatalogStore) (L1 L2 : ServerList)
    (O1 O2 : OrganizationList)
    (hv1 : serverListValid L1 = true) (hv2 : serverListValid L2 = true)
    (hver : L1.version < L2.version) (hcur : st.servers.version < L1.version)
    (ho1 : orgListValid O1 = true) (ho2 : orgListValid O2 = true)
    (hover : O1.version < O2.version)
    (hocur : st.organizations.version < O1.version) :
    ((replace_servers st L1).2 = none ∧
     (replace_servers (replace_servers st L1).1 L2).2 = none ∧
     (replace_servers (replace_servers st L1).1 L2).1.servers = L2) ∧
    ((replace_servers st L2).2 = none ∧
     (replace_servers (replace_servers st L2).1 L1).2 =
       some EngineError.StaleVersion ∧
     (replace_servers (replace_servers st L2).1 L1).1.servers = L2) ∧
    (∀ cand : ServerList, cand.version ≤ st.servers.version →
       (replace_servers st cand).1 = st ∧
       (serverListValid cand = true →
          (replace_servers st cand).2 = some EngineError.StaleVersion)) ∧
    ((replace_organizations st O1).2 = none ∧
     (replace_organizations (replace_organizations st O1).1 O2).2 = none ∧
     (replace_organizations (replace_organizations st O1).1 O2).1.organizations
       = O2) ∧
    ((replace_organizations st O2).2 = none ∧
     (replace_organizations (replace_organizations st O2).1 O1).2 =
       some EngineError.StaleVersion ∧
     (replace_organizations (replace_organizations st O2).1 O1).1.organizations
       = O2) ∧
    (∀ cand : OrganizationList, cand.version ≤ st.organizations.version →
       (replace_organizations st cand).1 = st ∧
       (orgListValid cand = true →
          (replace_organizations st cand).2 =
            some EngineError.StaleVersion)) := by
  have s1 := replace_servers_ok st L1 hv1 hcur
  have s2 : replace_servers ({ st with servers := L1 }) L2 =
      ({ st with servers := L2 }, none) := by
    have := replace_servers_ok ({ st with servers := L1 }) L2 hv2
      (show L1.version < L2.version by omega)
    simpa using this
  have s3 := replace_servers_ok st L2 hv2 (by omega)
  have s4 : replace_servers ({ st with servers := L2 }) L1 =
      (({ st with servers := L2 } : CatalogStore),
       some EngineError.StaleVersion) :=
    replace_servers_stale _ L1 hv1 (show L1.version ≤ L2.version by omega)
  have o1 := replace_organizations_ok st O1 ho1 hocur
  have o2 : replace_organizations ({ st with organizations := O1 }) O2 =
      ({ st with organizations := O2 }, none) := by
    have := replace_organizations_ok ({ st with organizations := O1 }) O2 ho2
      (show O1.version < O2.version by omega)
    simpa using this
  have o3 := replace_organizations_ok st O2 ho2 (by omega)
  have o4 : replace_organizations ({ st with organizations := O2 }) O1 =
      (({ st with organizations := O2 } : CatalogStore),
       some EngineError.StaleVersion) :=
    replace_organizations_stale _ O1 ho1
      (show O1.version ≤ O2.version by omega)
  refine ⟨⟨?_, ?_, ?_⟩, ⟨?_, ?_, ?_⟩, ?_, ⟨?_, ?_, ?_⟩, ⟨?_, ?_, ?_⟩, ?_⟩
  · rw [s1]
  · rw [s1, s2]
  · rw [s1, s2]
  · rw [s3]
  · rw [s3, s4]
  · rw [s3, s4]
  · intro cand hc
    by_cases hvc : serverListValid cand = true
    · rw [replace_servers_stale st cand hvc hc]
      exact ⟨rfl, fun _ => rfl⟩
    · unfold replace_servers
      rw [if_pos (by revert hvc; cases serverListValid cand <;> simp)]
      exact ⟨rfl, fun h => absurd h hvc⟩
  · rw [o1]
  · rw [o1, o2]
  · rw [o1, o2]
  · rw [o3]
  · rw [o3, o4]
  · rw [o3, o4]
  · intro cand hc
    by_cases hvc : orgListValid cand = true
    · rw [replace_organizations_stale st cand hvc hc]
      exact ⟨rfl, fun _ => rfl⟩
    · unfold replace_organizations
      rw [if_pos (by revert hvc; cases orgListValid cand <;> simp)]
      exact ⟨rfl, fun h => absurd h hvc⟩

/-- Witness for C1: from the empty store, versions 1 then 2 commit in
order; in the reverse order the second call is stale and version 2's
contents remain. -/
theorem c1_witness :
    (replace_servers (replace_servers initialStore listV1).1 listV2).1.servers
      = listV2 ∧
    (replace_servers (replace_servers initialStore listV2).1 listV1).2 =
      some EngineError.StaleVersion := by
  have h := c1_version_gate initialStore listV1 listV2 orgsV1 orgsV2
    (by decide) (by decide) (by decide) (by decide) (by decide) (by decide)
    (by decide) (by decide)
  exact ⟨h.1.2.2, h.2.1.2.1⟩

/-- C4: every ingestion failure — stale or invalid — returns the error
to the caller with the store exactly unchanged, and a malformed
candidate (duplicate keys, missing required fields) fails with
`InvalidCatalog`; there is no partial commit. -/
theorem c4_no_partial_commit :
    (∀ (st : CatalogStore) (cand : ServerList) (e : EngineError),
       (replace_servers st cand).2 = some e →
       (replace_servers st cand).1 = st) ∧
    (∀ (st : CatalogStore) (cand : OrganizationList) (e : EngineError),
       (replace_organizations st cand).2 = some e →
       (replace_organizations st cand).1 = st) ∧
    (∀ (st : CatalogStore) (cand : ServerList),
       serverListValid cand = false →
       replace_servers st cand = (st, some EngineError.InvalidCatalog)) ∧
    (∀ (st : CatalogStore) (cand : OrganizationList),
       orgListValid cand = false →
       replace_organizations st cand =
         (st, some EngineError.InvalidCatalog)) := by
  refine ⟨?_, ?_, ?_, ?_⟩
  · intro st cand e h
    by_cases h1 : serverListValid cand = false
    · simp [replace_servers, h1]
    · by_cases h2 : cand.version ≤ st.servers.version
      · simp [replace_servers, h1, h2]
      · simp [replace_servers, h1, h2] at h
  · intro st cand e h
    by_cases h1 : orgListValid cand = false
    · simp [replace_organizations, h1]
    · by_cases h2 : cand.version ≤ st.organizations.version
      · simp [replace_organizations, h1, h2]
      · simp [replace_organizations, h1, h2] at h
  · intro st cand h
    unfold replace_servers
    rw [if_pos h]
  · intro st cand h
    unfold replace_organizations
    rw [if_pos h]

/-- Witness for C4: a duplicate-key candidate is rejected with
`InvalidCatalog` and the empty store is unchanged. -/
theorem c4_witness :
    replace_servers initialStore badServerList =
      (initialStore, some EngineError.InvalidCatalog) :=
  c4_no_partial_commit.2.2.1 initialStore badServerList (by decide)

/-- C2: for a non-empty profile sequence, selection is the deterministic
function `selectProfile` of the input alone: a valid `current` index
selects that profile with no warning; otherwise the first
`default_gateway` profile in sequence order, warning exactly when more
than one qualifies; with no `default_gateway` profile, the first profile
in sequence order with no warning. -/
theorem c2_profile_selection (ps : ServerProfiles)
    (hne : ps.profiles ≠ []) :
    (∀ h : 0 ≤ ps.current ∧ ps.current.toNat < ps.profiles.length,
       selectProfile ps =
         some (ps.profiles.get ⟨ps.current.toNat, h.2⟩, false)) ∧
    (¬ (0 ≤ ps.current ∧ ps.current.toNat < ps.profiles.length) →
       ((ps.profiles.filter (·.default_gateway) = [] →
           ∃ p rest, ps.profiles = p :: rest ∧
             selectProfile ps = some (p, false)) ∧
        (∀ p, ps.profiles.filter (·.default_gateway) = [p] →
           selectProfile ps = some (p, false)) ∧
        (∀ p q rest,
           ps.profiles.filter (·.default_gateway) = p :: q :: rest →
           selectProfile ps = some (p, true)))) := by
  constructor
  · intro h
    simp only [selectProfile, dif_pos h]
  · intro h
    refine ⟨?_, ?_, ?_⟩
    · intro hf
      cases hp : ps.profiles with
      | nil => exact absurd hp hne
      | cons p rest =>
          refine ⟨p, rest, rfl, ?_⟩
          simp only [selectProfile, dif_neg h, hf]
          rw [hp]
          rfl
    · intro p hf
      simp only [selectProfile, dif_neg h, hf]
    · intro p q rest hf
      simp only [selectProfile, dif_neg h, hf]

/-- Witness for C2 at a concrete two-profile sequence with no selected
index: the single default-gateway profile is chosen without warning. -/
theorem c2_witness :
    selectProfile { current := -1, profiles := [profNoGw, profGw] } =
      some (profGw, false) := by
  have h := c2_profile_selection
    { current := -1, profiles := [profNoGw, profGw] } (by simp)
  exact (h.2 (by decide)).2.1 profGw (by decide)

/-- A successful lookup returns a server bearing the requested
identifier. -/
theorem lookup_identifier (sl : ServerList) (t : ServerType) (id : String)
    (s : Server) (h : lookupServer sl t id = some s) :
    s.identifier = id := by
  cases t <;> simp only [lookupServer] at h
  · have hb := List.find?_some h
    simpa using hb
  · cases hsec : sl.secure_internet_server with
    | none => rw [hsec] at h; exact absurd h (by simp)
    | some s0 =>
        rw [hsec, Option.some_bind] at h
        by_cases hid : (s0.identifier == id) = true
        · rw [if_pos hid] at h
          cases h
          exact eq_of_beq hid
        · rw [if_neg hid] at h
          exact absurd h (by simp)
  · have hb := List.find?_some h
    simpa using hb

/-- Presence in the snapshot is exactly a successful lookup. -/
theorem present_iff_lookup (sl : ServerList) (t : ServerType)
    (id : String) :
    presentIn sl t id ↔ ∃ s, lookupServer sl t id = some s := by
  cases t
  · simp only [presentIn, lookupServer]
    constructor
    · rintro ⟨s, hs, hid⟩
      have hsome : (sl.institute_servers.find?
          (fun s => s.identifier == id)).isSome = true := by
        rw [List.find?_isSome]
        exact ⟨s, hs, by simp [hid]⟩
      rcases Option.isSome_iff_exists.mp hsome with ⟨s2, hs2⟩
      exact ⟨s2, hs2⟩
    · rintro ⟨s, hs⟩
      have hb := List.find?_some hs
      exact ⟨s, List.mem_of_find?_eq_some hs, by simpa using hb⟩
  · simp only [presentIn, lookupServer]
    constructor
    · rintro ⟨s, hs, hid⟩
      refine ⟨s, ?_⟩
      rw [hs, Option.some_bind, if_pos (by simp [hid])]
    · rintro ⟨s, hs⟩
      cases hsec : sl.secure_internet_server with
      | none => rw [hsec] at hs; exact absurd hs (by simp)
      | some s0 =>
          rw [hsec, Option.some_bind] at hs
          by_cases hid : (s0.identifier == id) = true
          · exact ⟨s0, rfl, eq_of_beq hid⟩
          · rw [if_neg hid] at hs
            exact absurd hs (by simp)
  · simp only [presentIn, lookupServer]
    constructor
    · rintro ⟨s, hs, hid⟩
      have hsome : (sl.custom_servers.find?
          (fun s => s.identifier == id)).isSome = true := by
        rw [List.find?_isSome]
        exact ⟨s, hs, by simp [hid]⟩
      rcases Option.isSome_iff_exists.mp hsome with ⟨s2, hs2⟩
      exact ⟨s2, hs2⟩
    · rintro ⟨s, hs⟩
      have hb := List.find?_some hs
      exact ⟨s, List.mem_of_find?_eq_some hs, by simpa using hb⟩

/-- Unfolding `resolve` on a successful lookup. -/
theorem resolve_some (sl : ServerList) (t : ServerType) (id : String)
    (now : Nat) (s : Server) (hs : lookupServer sl t id = some s) :
    resolve sl t id now =
      (match selectProfile s.profiles with
       | none =>
           Except.ok
             ({ identifier := s.identifier, server_type := t, srv := s
              , profile := none, expired := isExpired s now }, false)
       | some (p, w) =>
           Except.ok
             ({ identifier := s.identifier, server_type := t, srv := s
              , profile := some p, expired := isExpired s now }, w)) := by
  unfold resolve
  rw [hs]

/-- C5: resolving any `(server_type, identifier)` pair present in the
snapshot succeeds with a ResolvedServer whose identifier and type equal
the request; resolving an absent pair fails with `ServerNotFound`. -/
theorem c5_resolve_present (sl : ServerList) (t : ServerType)
    (id : String) (now : Nat) :
    (presentIn sl t id →
       ∃ r w, resolve sl t id now = Except.ok (r, w) ∧
         r.identifier = id ∧ r.server_type = t) ∧
    (¬ presentIn sl t id →
       resolve sl t id now = Except.error EngineError.ServerNotFound) := by
  constructor
  · intro hp
    rcases (present_iff_lookup sl t id).mp hp with ⟨s, hs⟩
    have hid := lookup_identifier sl t id s hs
    have hres := resolve_some sl t id now s hs
    cases hsel : selectProfile s.profiles with
    | none =>
        rw [hsel] at hres
        exact ⟨_, _, hres, hid, rfl⟩
    | some pw =>
        obtain ⟨p, w⟩ := pw
        rw [hsel] at hres
        exact ⟨_, _, hres, hid, rfl⟩
  · intro hp
    unfold resolve
    cases hs : lookupServer sl t id with
    | none => rfl
    | some s =>
        exact absurd ((present_iff_lookup sl t id).mpr ⟨s, hs⟩) hp

/-- Witness for C5: in the sample catalog, identifier "a" resolves with
matching identifier and type, and identifier "z" is not found. -/
theorem c5_witness :
    (∃ r w, resolve listV1 ServerType.custom "a" 0 = Except.ok (r, w) ∧
       r.identifier = "a" ∧ r.server_type = ServerType.custom) ∧
    resolve listV1 ServerType.custom "z" 0 =
      Except.error EngineError.ServerNotFound := by
  constructor
  · refine (c5_resolve_present listV1 ServerType.custom "a" 0).1 ?_
    show ∃ s ∈ listV1.custom_servers, s.identifier = "a"
    exact ⟨sampleServer "a" ServerType.custom 0, by decide, rfl⟩
  · refine (c5_resolve_present listV1 ServerType.custom "z" 0).2 ?_
    show ¬ ∃ s ∈ listV1.custom_servers, s.identifier = "z"
    decide

/-- C7: resolution of a server whose `expire_time` is non-zero and has
passed still succeeds and flags the result `Expired = true`; a server
with `expire_time = 0` (no expiry) is never flagged expired. -/
theorem c7_expiry (sl : ServerList) (t : ServerType) (id : String)
    (now : Nat) (s : Server) (hs : lookupServer sl t id = some s) :
    (s.expire_time ≠ 0 → s.expire_time ≤ now →
       ∃ r w, resolve sl t id now = Except.ok (r, w) ∧ r.expired = true) ∧
    (s.expire_time = 0 →
       ∀ r w, resolve sl t id now = Except.ok (r, w) →
         r.expired = false) := by
  have hres := resolve_some sl t id now s hs
  constructor
  · intro h0 hpast
    have hexp : isExpired s now = true := by
      simp [isExpired, h0, hpast]
    cases hsel : selectProfile s.profiles with
    | none =>
        rw [hsel] at hres
        exact ⟨_, _, hres, hexp⟩
    | some pw =>
        obtain ⟨p, w⟩ := pw
        rw [hsel] at hres
        exact ⟨_, _, hres, hexp⟩
  · intro h0 r w hok
    have hexp : isExpired s now = false := by
      simp [isExpired, h0]
    cases hsel : selectProfile s.profiles with
    | none =>
        rw [hsel] at hres
        rw [hres] at hok
        cases hok
        exact hexp
    | some pw =>
        obtain ⟨p, w'⟩ := pw
        rw [hsel] at hres
        rw [hres] at hok
        cases hok
        exact hexp

/-- Witness for C7: the sample server that expired at epoch second 5
resolves at time 10 as expired, and the unexpiring server "a" resolves
at time 10 as not expired. -/
theorem c7_witness :
    (∃ r w, resolve listExpired ServerType.custom "old" 10 =
       Except.ok (r, w) ∧ r.expired = true) ∧
    (∀ r w, resolve listV1 ServerType.custom "a" 10 = Except.ok (r, w) →
       r.expired = false) := by
  constructor
  · exact (c7_expiry listExpired ServerType.custom "old" 10
      (sampleServer "old" ServerType.custom 5) (by decide)).1
      (by decide) (by decide)
  · exact (c7_expiry listV1 ServerType.custom "a" 10
      (sampleServer "a" ServerType.custom 0) (by decide)).2 rfl

/-- Persisting a profile index never changes the identifier sequence of
a server collection. -/
theorem map_upd_identifier (l : List Server) (id : String) (i : Int) :
    ((l.map (updServer id i)).map (·.identifier)) = l.map (·.identifier) := by
  induction l with
  | nil => rfl
  | cons a l ih =>
      simp only [List.map_cons, List.cons.injEq]
      refine ⟨?_, ih⟩
      by_cases h : (a.identifier == id) = true <;>
        simp [updServer, h, setCurrent]

/-- Persisting a profile index never changes any server's type. -/
theorem map_upd_server_type (l : List Server) (id : String) (i : Int)
    (t : ServerType) :
    ((l.map (updServer id i)).all (fun s => s.server_type == t)) =
      l.all (fun s => s.server_type == t) := by
  induction l with
  | nil => rfl
  | cons a l ih =>
      simp only [List.map_cons, List.all_cons, ih]
      by_cases h : (a.identifier == id) = true <;>
        simp [updServer, h, setCurrent]

/-- A candidate that passes catalog validation satisfies the server-list
shape invariant. -/
theorem serverListValid_invariant (l : ServerList)
    (h : serverListValid l = true) : serverListInvariant l = true := by
  unfold serverListValid at h
  unfold serverListInvariant
  simp only [Bool.and_eq_true, List.all_eq_true] at h ⊢
  obtain ⟨⟨⟨⟨hc, huc⟩, hi⟩, hui⟩, hs⟩ := h
  refine ⟨⟨⟨⟨huc, hui⟩, ?_⟩, ?_⟩, ?_⟩
  · intro s hsm
    exact (hc s hsm).2
  · intro s hsm
    exact (hi s hsm).2
  · revert hs
    cases l.secure_internet_server with
    | none => intro _; rfl
    | some s0 =>
        intro hs
        exact (Bool.and_eq_true _ _ |>.mp hs).2

/-- The selector's persisted profile selection preserves the server-list
shape invariant. -/
theorem persistSelection_invariant (sl : ServerList) (t : ServerType)
    (id : String) (i : Int) (h : serverListInvariant sl = true) :
    serverListInvariant (persistSelection sl t id i) = true := by
  cases t
  · show serverListInvariant
        { sl with institute_servers := sl.institute_servers.map (updServer id i) } = true
    unfold serverListInvariant at h ⊢
    dsimp only
    rw [map_upd_identifier, map_upd_server_type]
    exact h
  · show serverListInvariant
        { sl with secure_internet_server := sl.secure_internet_server.map (updServer id i) } = true
    unfold serverListInvariant at h ⊢
    revert h
    cases sl.secure_internet_server with
    | none => intro h; simpa using h
    | some s0 =>
        intro h
        simp only [Option.map_some]
        by_cases hid : (s0.identifier == id) = true <;>
          simpa [updServer, hid, setCurrent] using h
  · show serverListInvariant
        { sl with custom_servers := sl.custom_servers.map (updServer id i) } = true
    unfold serverListInvariant at h ⊢
    dsimp only
    rw [map_upd_identifier, map_upd_server_type]
    exact h

/-- A failed organization replace leaves the server list untouched, and
any organization replace leaves it untouched. -/
theorem replace_organizations_servers (st : CatalogStore)
    (l : OrganizationList) :
    (replace_organizations st l).1.servers = st.servers := by
  unfold replace_organizations
  split
  · rfl
  · split <;> rfl

/-- Every store operation preserves the server-list shape invariant. -/
theorem applyOp_invariant (st : CatalogStore) (op : StoreOp)
    (h : serverListInvariant st.servers = true) :
    serverListInvariant (applyOp st op).servers = true := by
  cases op with
  | replaceOrgs l =>
      show serverListInvariant (replace_organizations st l).1.servers = true
      rw [replace_organizations_servers]
      exact h
  | replaceServers l =>
      show serverListInvariant (replace_servers st l).1.servers = true
      unfold replace_servers
      split
      · exact h
      · next hval =>
          split
          · exact h
          · exact serverListValid_invariant l
              (by revert hval; cases serverListValid l <;> simp)
  | persistSel t id i =>
      show serverListInvariant (persistSelection st.servers t id i) = true
      exact persistSelection_invariant st.servers t id i h

/-- C8: in every state of the store reachable from the empty initial
store by catalog replaces and selector operations, each server
collection is keyed by unique identifiers in its own slot (custom and
institute disjoint by type) and the secure-internet slot — a single
nullable pointer in the C struct — holds at most one server. -/
theorem c8_store_invariant :
    ∀ ops : List StoreOp,
      serverListInvariant ((ops.foldl applyOp initialStore).servers) = true ∧
      secureInternetCount ((ops.foldl applyOp initialStore).servers) ≤ 1 := by
  have key : ∀ (ops : List StoreOp) (st : CatalogStore),
      serverListInvariant st.servers = true →
      serverListInvariant ((ops.foldl applyOp st).servers) = true := by
    intro ops
    induction ops with
    | nil => intro st h; exact h
    | cons op ops ih =>
        intro st h
        exact ih (applyOp st op) (applyOp_invariant st op h)
  have cnt : ∀ sl : ServerList, secureInternetCount sl ≤ 1 := by
    intro sl
    unfold secureInternetCount
    cases sl.secure_internet_server <;> simp
  intro ops
  exact ⟨key ops initialStore rfl, cnt _⟩

/-- Every step either emits no transition and keeps the state, or emits
exactly the pair `(old, new)` where `old` is the pre-state, `new` is the
post-state, and the two differ. -/
theorem step_cases (s : ConnState) (e : ConnEvent) :
    ((step s e).2.1 = none ∧ (step s e).1 = s) ∨
    (∃ n, (step s e).2.1 = some (s, n) ∧ n = (step s e).1 ∧ s ≠ n) := by
  cases s <;> cases e <;> simp [step]

/-- Running no events reports nothing. -/
theorem run_nil (s : ConnState) : run s [] = (s, []) := rfl

/-- Running an event then the rest: the reported pairs are the step's
emission followed by the rest's. -/
theorem run_cons (s : ConnState) (e : ConnEvent) (es : List ConnEvent) :
    run s (e :: es) =
      ((run (step s e).1 es).1,
       (step s e).2.1.toList ++ (run (step s e).1 es).2) := rfl

/-- C3: along every execution, the reported `(old_state, new_state)`
pairs chain exactly from the start state to the final state — one
callback invocation per transition, in order, with no transition skipped
or duplicated; no reported pair repeats a state (`old ≠ new`, so no two
consecutively reported states are identical); and a `connect()` from
`Disconnected` reports exactly one `Disconnected → Connecting`
transition before anything else is reported. -/
theorem c3_transition_reporting :
    (∀ (s : ConnState) (es : List ConnEvent),
       chained s (run s es).2 (run s es).1) ∧
    (∀ (s : ConnState) (es : List ConnEvent) (p : ConnState × ConnState),
       p ∈ (run s es).2 → p.1 ≠ p.2) ∧
    (∀ es : List ConnEvent,
       (run ConnState.Disconnected (ConnEvent.connect :: es)).2 =
         (ConnState.Disconnected, ConnState.Connecting) ::
           (run ConnState.Connecting es).2) := by
  have h1 : ∀ (es : List ConnEvent) (s : ConnState),
      chained s (run s es).2 (run s es).1 := by
    intro es
    induction es with
    | nil => intro s; exact rfl
    | cons e es ih =>
        intro s
        rw [run_cons]
        rcases step_cases s e with ⟨hn, hs⟩ | ⟨n, hsome, hn, hne⟩
        · rw [hn]
          simp only [Option.toList_none, List.nil_append]
          rw [hs]
          exact ih s
        · rw [hsome]
          simp only [Option.toList_some, List.singleton_append]
          refine ⟨rfl, ?_⟩
          rw [hn]
          exact ih (step s e).1
  refine ⟨fun s es => h1 es s, ?_, ?_⟩
  · intro s es
    induction es generalizing s with
    | nil =>
        intro p hp
        rw [run_nil] at hp
        exact absurd hp (List.not_mem_nil p)
    | cons e es ih =>
        intro p hp
        rw [run_cons] at hp
        rcases List.mem_append.mp hp with hp | hp
        · rcases step_cases s e with ⟨hn, _⟩ | ⟨n, hsome, _, hne⟩
          · rw [hn] at hp
            exact absurd hp (List.not_mem_nil p)
          · rw [hsome] at hp
            simp only [Option.toList_some, List.mem_singleton] at hp
            rw [hp]
            exact hne
        · exact ih (step s e).1 p hp
  · intro es
    rw [run_cons]
    rfl

/-- Witness for C3 on the one-event execution `[connect]`: its single
reported pair has distinct old and new states. -/
theorem c3_witness :
    ((ConnState.Disconnected, ConnState.Connecting) :
        ConnState × ConnState).1 ≠
      ((ConnState.Disconnected, ConnState.Connecting) :
        ConnState × ConnState).2 :=
  c3_transition_reporting.2.1 ConnState.Disconnected [ConnEvent.connect]
    (ConnState.Disconnected, ConnState.Connecting) (by decide)

end EduVpn
